import Mathlib

/-!
Verification of the s3router routing/dispatch engine.

Shallow embedding of the Go sources of `wilbeibi/s3router`:

* `src/config/config.go` — rule compilation (`Load`), routing lookup
  (`Config.Lookup`), namespace `config` below;
* `src/config.go` — the root-package loader (`LoadConfig`) with bucket-alias
  parsing and per-block validation, namespace `s3router` below;
* `src/router.go` — the typed dispatcher (`doSerial`, `doParallel`,
  `dispatch`), the HTTP fallback handler (`ruleRT.doFallback`), and the body
  replication helpers (`drainBody`, `teeBody`);
* `src/client.go` — the `s3.Client`-typed dispatcher variant (`doParallel`).

Go strings are modelled as `List Char` (byte-wise lexicographic comparison
becomes `Char`-wise comparison), Go maps as association lists (every claim
below quantifies over all association-list orders, which covers Go's
unspecified map iteration order), and fallible Go functions as `Except`.
-/

deriving instance DecidableEq for Except

/-- Go `string`, modelled as a list of characters. -/
abbrev Str := List Char

/-- Embed a Lean string literal into the model. -/
def str (s : String) : Str := s.data

/-- Go string comparison `a < b` (byte-wise lexicographic). -/
def strLt : Str → Str → Bool
  | [], [] => false
  | [], _ :: _ => true
  | _ :: _, [] => false
  | a :: as, b :: bs => if a < b then true else if b < a then false else strLt as bs

/-- Go `strings.HasPrefix(s, pre)`, as `isPre pre s`. -/
def isPre : Str → Str → Bool
  | [], _ => true
  | _ :: _, [] => false
  | a :: as, b :: bs => a == b && isPre as bs

/-- Go `strings.Contains(hay, needle)`. -/
def containsStr : Str → Str → Bool
  | [], needle => needle.isEmpty
  | h :: t, needle => isPre needle (h :: t) || containsStr t needle

/-- Read from a Go map modelled as an association list. -/
def mapGet {α : Type} : List (Str × α) → Str → Option α
  | [], _ => none
  | (k, v) :: rest, q => if q = k then some v else mapGet rest q

/-- Go map assignment `m[k] = v` (replace an existing binding, else append). -/
def upsert {α : Type} : List (Str × α) → Str → α → List (Str × α)
  | [], k, v => [(k, v)]
  | (k', v') :: rest, k, v =>
    if k = k' then (k, v) :: rest else (k', v') :: upsert rest k v

/-! ## Package `config` (src/config/config.go) -/

namespace config

/-- Model of `config.Action` — Go `type Action string`. -/
abbrev Action := Str

/-- Model of `config.ActPrimary`. -/
def ActPrimary : Action := str "primary"

/-- Model of `config.ActSecondary`. -/
def ActSecondary : Action := str "secondary"

/-- Model of `config.ActFallback`. -/
def ActFallback : Action := str "fallback"

/-- Model of `config.ActMirror`. -/
def ActMirror : Action := str "mirror"

/-- Model of `config.ActBestEffort`. -/
def ActBestEffort : Action := str "best-effort"

/-- The wildcard string `"*"` (wildcard bucket, root prefix, default op). -/
def star : Str := str "*"

/-- Model of `config.BucketMapping` — logical bucket to per-endpoint physical names. -/
structure BucketMapping where
  primary : Str
  secondary : Str
deriving DecidableEq, Repr

/-- Model of `config.Rule` — compiled routing rule.  Go field `Prefix` is `pref` here;
`Actions` (a Go map op → action) is an association list. -/
structure Rule where
  bucket : Str
  pref : Str
  actions : List (Str × Action)
deriving DecidableEq, Repr

/-- Go zero value `Rule{}` (empty strings, nil map). -/
def emptyRule : Rule := ⟨[], [], []⟩

/-- Model of `config.Config` — compiled configuration. -/
structure Config where
  endpoints : List (Str × Str)
  buckets : List (Str × BucketMapping)
  rules : List Rule
deriving DecidableEq, Repr

/-- One entry of `yamlConfig.Rules`: Go field `Prefix` is the map
prefix → (op → action token), modelled as the association list `blocks`. -/
structure YamlRule where
  bucket : Str
  blocks : List (Str × List (Str × Str))
deriving DecidableEq, Repr

/-- Model of `config.yamlConfig` — the decoded YAML document. -/
structure YamlConfig where
  endpoints : List (Str × Str)
  buckets : List (Str × BucketMapping)
  rules : List YamlRule
deriving DecidableEq, Repr

/-- The rule-expansion loop of `Load` (config.go:76-94): one compiled `Rule`
per prefix block, converting the `"*"` prefix to the empty root prefix.
(`Action(action)` is the identity here since `Action` is a string type.) -/
def expandRules : List YamlRule → List Rule
  | [] => []
  | yr :: rest =>
    yr.blocks.map
      (fun blk => { bucket := yr.bucket
                    pref := if blk.1 = star then [] else blk.1
                    actions := blk.2 })
      ++ expandRules rest

/-- The comparator passed to `sort.Slice` in `Load` (config.go:103-110):
bucket ascending, then prefix lexicographically descending. -/
def ruleLess (r1 r2 : Rule) : Bool :=
  if r1.bucket ≠ r2.bucket then strLt r1.bucket r2.bucket
  else strLt r2.pref r1.pref

/-- Holds when `r1` may precede `r2` in the sorted rule table: the negation of
`ruleLess r2 r1`, i.e. exactly what `sort.Slice` guarantees for `i < j`. -/
def ruleLE (r1 r2 : Rule) : Prop := ruleLess r2 r1 = false

instance : DecidableRel ruleLE := fun r1 r2 => by unfold ruleLE; infer_instance

/-- The fixed error of `Load` when a rule lacks a `"*"` action (config.go:98). -/
def missingDefaultMsg : Str := str "missing default \"*\" operation"

/-- Model of `config.Load` (config.go:59-113), starting after the YAML decode: expand
the rule blocks, validate that every rule has a default `"*"` action (Go
returns the same fixed message on the first offender, so the `all` check
yields the identical `Except` value), then sort.  Go's `sort.Slice` is
unstable; `insertionSort` by `ruleLE` is one sort consistent with its
comparator. -/
def Load (yml : YamlConfig) : Except Str Config :=
  let rules := expandRules yml.rules
  if rules.all (fun r => (mapGet r.actions star).isSome) then
    .ok { endpoints := yml.endpoints
          buckets := yml.buckets
          rules := List.insertionSort ruleLE rules }
  else
    .error missingDefaultMsg

/-- The linear scan of `Config.Lookup` (config.go:117-131) over a rule list. -/
def lookupRules : List Rule → Str → Str → Str → Rule × Action
  | [], _, _, _ => (emptyRule, ActPrimary)
  | rule :: rest, bucket, key, op =>
    if rule.bucket ≠ bucket ∧ rule.bucket ≠ star then
      lookupRules rest bucket key op
    else if rule.pref ≠ [] ∧ isPre rule.pref key = false then
      lookupRules rest bucket key op
    else
      match mapGet rule.actions op with
      | some act => (rule, act)
      | none => (rule, (mapGet rule.actions star).getD [])

/-- Model of `Config.Lookup` (config.go:117-131). -/
def Lookup (cfg : Config) (bucket key op : Str) : Rule × Action :=
  lookupRules cfg.rules bucket key op

/-- A rule structurally matches a query: its bucket equals the query bucket or
the wildcard, and its prefix is empty or a prefix of the key. -/
def ruleMatch (rule : Rule) (bucket key : Str) : Prop :=
  (rule.bucket = bucket ∨ rule.bucket = star) ∧
    (rule.pref = [] ∨ isPre rule.pref key = true)

instance : ∀ rule bucket key, Decidable (ruleMatch rule bucket key) := fun _ _ _ => by
  unfold ruleMatch; infer_instance

end config

/-! ## Package `s3router` root loader (src/config.go) -/

namespace s3router

/-- Model of `action` — Go `type action string` (src/config.go:25). -/
abbrev GoAction := Str

/-- Model of `actPrimary` (src/config.go:28). -/
def actPrimary : GoAction := str "primary"

/-- Model of `actSecondary` (src/config.go:29). -/
def actSecondary : GoAction := str "secondary"

/-- Model of `actFallback` (src/config.go:30). -/
def actFallback : GoAction := str "fallback"

/-- Model of `actMirror` (src/config.go:31). -/
def actMirror : GoAction := str "mirror"

/-- Model of `actBestEffort` (src/config.go:32). -/
def actBestEffort : GoAction := str "best-effort"

/-- The `reserved` action-token set (src/config.go:35-39), as a list. -/
def reservedActs : List Str :=
  [actPrimary, actSecondary, actFallback, actMirror, actBestEffort]

/-- Model of `Rule` of the root package (src/config.go:42-47).  Go field `Prefix` is
`pref`; `ActionFor` and `Alias` (here `aliasM`, since `alias` is reserved) are association lists. -/
structure Rule where
  bucket : Str
  aliasM : List (Str × Str)
  pref : Str
  actionFor : List (Str × GoAction)
deriving DecidableEq, Repr

/-- Model of `Config` of the root package (src/config.go:49-52). -/
structure Config where
  endpoints : List (Str × Str)
  rules : List Rule
deriving DecidableEq, Repr

/-- Model of `yamlRule` (src/config.go:12-15): bucket plus prefix → op → action token. -/
structure YamlRule where
  bucket : Str
  blocks : List (Str × List (Str × Str))
deriving DecidableEq, Repr

/-- Model of `yamlConfig` (src/config.go:17-21).  The shorthand `routes` form
(src/config.go:67-86) is a pre-pass that rewrites `Routes` into `Rules`
before any validation; the claims below quantify over the post-conversion
rule list, so `routes` is not carried here. -/
structure YamlConfig where
  endpoints : List (Str × Str)
  rules : List YamlRule
deriving DecidableEq, Repr

/-- Go `strings.Split(s, string(c))`. -/
def splitOnChar (c : Char) : Str → List Str
  | [] => [[]]
  | a :: as =>
    match splitOnChar c as with
    | [] => [[a]]
    | g :: gs => if a = c then [] :: g :: gs else (a :: g) :: gs

/-- Go `strings.SplitN(s, string(c), 2)`: the part before the first `c`, and
the rest after it when `c` occurs. -/
def splitFirst (c : Char) : Str → Str × Option Str
  | [] => ([], none)
  | a :: as =>
    if a = c then ([], some as)
    else
      let p := splitFirst c as
      (a :: p.1, p.2)

/-- Error of src/config.go:89. -/
def missingEndpointMsg : Str := str "missing mandatory endpoint \"primary\""

/-- Error of src/config.go:104 (`%q` rendered as plain double quoting). -/
def emptyNameMsg (b : Str) : Str :=
  str "empty bucket name in rule: \"" ++ b ++ str "\""

/-- Error of src/config.go:112. -/
def missingPrimaryMsg (b : Str) : Str :=
  str "rule missing primary bucket definition (@primary): \"" ++ b ++ str "\""

/-- Error of src/config.go:116. -/
def emptyBlockMsg (b : Str) : Str :=
  str "bucket \"" ++ b ++ str "\": rule block is empty"

/-- Error of src/config.go:122. -/
def noOpsMsg (b p : Str) : Str :=
  str "bucket \"" ++ b ++ (str "\" prefix \"" ++ p ++ str "\": no operations defined")

/-- Error of src/config.go:125 — names the offending bucket and prefix. -/
def missingStarMsg (b p : Str) : Str :=
  str "bucket \"" ++ b ++
    (str "\" prefix \"" ++ p ++ str "\": missing default \"*\" operation")

/-- Error of src/config.go:132. -/
def unknownActMsg (b p op tok : Str) : Str :=
  str "bucket \"" ++ b ++ (str "\" prefix \"" ++ p ++
    (str "\" op \"" ++ op ++ (str "\": unknown action \"" ++ tok ++ str "\"")))

/-- The bucket-token loop of `LoadConfig` (src/config.go:95-113): walk the
`:`-separated tokens, each `name@endpoint` (endpoint defaulting to
`primary`), accumulating the alias map and the canonical primary name. -/
def parseTokens (orig : Str) : List Str → Str → List (Str × Str) →
    Except Str (Str × List (Str × Str))
  | [], canon, al =>
    if canon = [] then .error (missingPrimaryMsg orig) else .ok (canon, al)
  | tok :: rest, canon, al =>
    let p := splitFirst '@' tok
    let name := p.1
    let ep := match p.2 with
      | none => str "primary"
      | some e => e
    if name = [] then .error (emptyNameMsg orig)
    else
      parseTokens orig rest (if ep = str "primary" then name else canon)
        (upsert al ep name)

/-- Parse a rule's bucket field, e.g. `bucket@primary:alias@secondary`. -/
def parseBucket (b : Str) : Except Str (Str × List (Str × Str)) :=
  parseTokens b (splitOnChar ':' b) [] []

/-- The op/token loop of src/config.go:128-136: lower-case each token, reject
unknown ones, and build the action map in iteration order. -/
def compileOps (b p : Str) : List (Str × Str) → Except Str (List (Str × GoAction))
  | [] => .ok []
  | (op, tok) :: rest =>
    let act := tok.map Char.toLower
    if act ∈ reservedActs then
      match compileOps b p rest with
      | .error e => .error e
      | .ok am => .ok ((op, act) :: am)
    else
      .error (unknownActMsg b p op tok)

/-- Compile one prefix block (src/config.go:120-146): reject empty blocks and
blocks without a `"*"` default, then validate the action tokens. -/
def compileBlock (origBucket canon : Str) (al : List (Str × Str)) (p : Str)
    (ops : List (Str × Str)) : Except Str Rule :=
  if ops = [] then .error (noOpsMsg origBucket p)
  else if (mapGet ops (str "*")).isNone then .error (missingStarMsg origBucket p)
  else
    match compileOps origBucket p ops with
    | .error e => .error e
    | .ok am => .ok { bucket := canon, aliasM := al, pref := p, actionFor := am }

/-- All prefix blocks of one `yamlRule`. -/
def compileBlocks (origBucket canon : Str) (al : List (Str × Str)) :
    List (Str × List (Str × Str)) → Except Str (List Rule)
  | [] => .ok []
  | (p, ops) :: rest =>
    match compileBlock origBucket canon al p ops with
    | .error e => .error e
    | .ok r =>
      match compileBlocks origBucket canon al rest with
      | .error e => .error e
      | .ok rs => .ok (r :: rs)

/-- The rule loop of `LoadConfig` (src/config.go:92-147). -/
def compileRules : List YamlRule → Except Str (List Rule)
  | [] => .ok []
  | yr :: rest =>
    match parseBucket yr.bucket with
    | .error e => .error e
    | .ok ca =>
      if yr.blocks = [] then .error (emptyBlockMsg yr.bucket)
      else
        match compileBlocks yr.bucket ca.1 ca.2 yr.blocks with
        | .error e => .error e
        | .ok rs =>
          match compileRules rest with
          | .error e => .error e
          | .ok more => .ok (rs ++ more)

/-- The comparator of src/config.go:150-156: bucket ascending, then longest
prefix first. -/
def ruleLess (r1 r2 : Rule) : Bool :=
  if r1.bucket ≠ r2.bucket then strLt r1.bucket r2.bucket
  else decide (r2.pref.length < r1.pref.length)

/-- Sorted-order relation guaranteed by `sort.Slice` for src/config.go. -/
def ruleLE (r1 r2 : Rule) : Prop := ruleLess r2 r1 = false

instance : DecidableRel ruleLE := fun r1 r2 => by unfold ruleLE; infer_instance

/-- Model of `LoadConfig` (src/config.go:56-159) after the YAML decode and the
`routes` pre-pass: endpoint check, rule compilation, sort.  `sort.Slice` is
unstable; `insertionSort` by `ruleLE` is one sort consistent with its
comparator. -/
def LoadConfig (y : YamlConfig) : Except Str Config :=
  if (mapGet y.endpoints (str "primary")).isNone then .error missingEndpointMsg
  else
    match compileRules y.rules with
    | .error e => .error e
    | .ok rules => .ok { endpoints := y.endpoints, rules := List.insertionSort ruleLE rules }

end s3router

/-! ## Dispatcher and body replication (src/router.go, src/client.go)

The dispatcher functions package Go's `(T, error)` return as `Except E T`.
Each model additionally returns a `List Leg` recording, in program order,
which backend legs the Go code invokes; this component is instrumentation
(it has no counterpart in the Go return values).  `doParallel`'s two
goroutines write disjoint variables and are joined by `wg.Wait()` before any
result is inspected, so its caller-visible outcome is independent of
goroutine scheduling and the sequential denotation below is faithful. -/

/-- Which backend leg an invocation went to. -/
inductive Leg where
  | prim
  | sec
deriving DecidableEq, Repr

namespace s3router

/-- Model of `doSerial` (src/router.go:333-344): primary, then secondary only if the
primary returned an error. -/
def doSerial {E T I St : Type} (op : St → I → Except E T) (in1 in2 : I)
    (s1 s2 : St) : Except E T × List Leg :=
  match op s1 in1 with
  | .ok out => (.ok out, [Leg.prim])
  | .error _ => (op s2 in2, [Leg.prim, Leg.sec])

/-- Model of `doParallel` (src/router.go:347-384).  `strict = true` is mirror: both
legs run (to completion, joined), `errA` is checked before `errB`, and on
joint success the primary's `out` is returned.  `strict = false` is
best-effort: the secondary is fired and its outcome discarded. -/
def doParallel {E T I St : Type} (strict : Bool) (op : St → I → Except E T)
    (in1 in2 : I) (s1 s2 : St) : Except E T × List Leg :=
  if strict then
    let ra := op s1 in1
    let rb := op s2 in2
    let res : Except E T :=
      match ra with
      | .error eA => .error eA
      | .ok out =>
        match rb with
        | .error eB => .error eB
        | .ok _ => .ok out
    (res, [Leg.prim, Leg.sec])
  else
    (op s1 in1, [Leg.prim, Leg.sec])

/-- Model of `dispatch` (src/router.go:423-445): the five-policy switch, defaulting to
the primary leg on an unknown action. -/
def dispatch {E T I St : Type} (act : config.Action) (op : St → I → Except E T)
    (in1 in2 : I) (s1 s2 : St) : Except E T × List Leg :=
  if act = config.ActPrimary then (op s1 in1, [Leg.prim])
  else if act = config.ActSecondary then (op s2 in2, [Leg.sec])
  else if act = config.ActFallback then doSerial op in1 in2 s1 s2
  else if act = config.ActBestEffort then doParallel false op in1 in2 s1 s2
  else if act = config.ActMirror then doParallel true op in1 in2 s1 s2
  else (op s1 in1, [Leg.prim])

/-- An HTTP response as seen by `ruleRT` (status code plus body bytes). -/
structure Resp where
  status : Nat
  body : Str
deriving DecidableEq, Repr

/-- Model of `ruleRT.doFallback` (src/router.go:121-127 of the transport variant):
`reqPrim`/`reqSec` are the request rewritten to the primary/secondary
endpoints, `rt` the underlying `RoundTrip`.  The primary response is kept
when there is no transport error and its status is `< 500`; otherwise the
secondary round-trip's outcome is returned verbatim. -/
def doFallback {E Req : Type} (rt : Req → Except E Resp) (reqPrim reqSec : Req) :
    Except E Resp × List Leg :=
  match rt reqPrim with
  | .ok resp => if resp.status < 500 then (.ok resp, [Leg.prim]) else (rt reqSec, [Leg.prim, Leg.sec])
  | .error _ => (rt reqSec, [Leg.prim, Leg.sec])

/-- An `io.Reader` source, denoted by the bytes it yields before EOF and an
optional terminal read error (bytes as `Nat`). -/
structure Src (E : Type) where
  data : List Nat
  failure : Option E
deriving DecidableEq, Repr

/-- Model of `drainBody` (src/router.go:386-395): `io.ReadAll` the source, fail on a
read error, fail with the context's error if the context was cancelled at
the post-read check, else hand out two independent readers over the buffered
bytes. -/
def drainBody {E : Type} (ctxErr : Option E) (r : Src E) :
    Except E (List Nat × List Nat) :=
  match r.failure with
  | some e => .error e
  | none =>
    match ctxErr with
    | some e => .error e
    | none => .ok (r.data, r.data)

/-- One pipe end produced by `teeBody`: the bytes readable from it and the
error it is closed with (`none` = clean close, reads end in `io.EOF`). -/
structure PipeEnd (E : Type) where
  data : List Nat
  closeErr : Option E
deriving DecidableEq, Repr

/-- The copy goroutine of `teeBody` (src/router.go:397-420).  `cancelReady`
is whether `ctx.Done()` was ready at the goroutine's single
`select`/`default` check — the only point at which the context is ever
consulted.  If it was ready, both pipes are closed with `ctxErr` before any
copy; otherwise `io.Copy` duplicates the source into both pipes and closes
them with the source's terminal error, or cleanly on EOF.  Cancellation
after the check never influences the result (it is not even an input).
`teeBody` itself always returns both pipe readers and a nil error. -/
def teeRun {E : Type} (cancelReady : Bool) (ctxErr : E) (r : Src E) :
    PipeEnd E × PipeEnd E :=
  if cancelReady then
    ({ data := [], closeErr := some ctxErr }, { data := [], closeErr := some ctxErr })
  else
    match r.failure with
    | some e => ({ data := r.data, closeErr := some e }, { data := r.data, closeErr := some e })
    | none => ({ data := r.data, closeErr := none }, { data := r.data, closeErr := none })

/-- Interleaved consumption of two independent readers: `true` reads one byte
from the first reader, `false` from the second (a read on an exhausted
reader yields nothing).  Returns `((delivered1, rest1), (delivered2,
rest2))`. -/
def runReads : List Bool → List Nat → List Nat →
    (List Nat × List Nat) × (List Nat × List Nat)
  | [], r1, r2 => (([], r1), ([], r2))
  | c :: s, r1, r2 =>
    if c then
      match r1 with
      | [] => runReads s [] r2
      | a :: as =>
        let rec1 := runReads s as r2
        ((a :: rec1.1.1, rec1.1.2), rec1.2)
    else
      match r2 with
      | [] => runReads s r1 []
      | b :: bs =>
        let rec1 := runReads s r1 bs
        (rec1.1, (b :: rec1.2.1, rec1.2.2))

end s3router

/-! ## Package `router` client variant (src/client.go) -/

namespace rclient

/-- Model of `doParallel` of src/client.go:103-139: the same mirror/best-effort logic
over two `*s3.Client`-shaped callables `a`, `b`. -/
def doParallel {E T C : Type} (strict : Bool) (a b : C → Except E T)
    (c1 c2 : C) : Except E T × List Leg :=
  if strict then
    let ra := a c1
    let rb := b c2
    let res : Except E T :=
      match ra with
      | .error eA => .error eA
      | .ok out =>
        match rb with
        | .error eB => .error eB
        | .ok _ => .ok out
    (res, [Leg.prim, Leg.sec])
  else
    (a c1, [Leg.prim, Leg.sec])

end rclient

/-! ## Concrete fixtures for witnesses and counterexamples -/

/-- A wildcard-bucket rule with the root prefix, mirroring every op. -/
def ruleStarC1 : config.Rule :=
  { bucket := config.star, pref := [], actions := [(config.star, config.ActMirror)] }

/-- A bucket-`b` rule for prefix `k`. -/
def ruleBC1 : config.Rule :=
  { bucket := str "b", pref := str "k", actions := [(config.star, config.ActPrimary)] }

/-- A compiled table holding both rules, in sorted order (`"*" < "b"`). -/
def cexC1 : config.Config := { endpoints := [], buckets := [], rules := [ruleStarC1, ruleBC1] }

/-- A one-rule table for the C1 witness. -/
def cfgC1W : config.Config := { endpoints := [], buckets := [], rules := [ruleBC1] }

/-- Leg op: primary store (`true`) succeeds, secondary store fails. -/
def mixOp : Bool → Unit → Except Str Nat := fun s _ =>
  match s with
  | true => .ok 1
  | false => .error (str "secondary failed")

/-- Leg op: both stores succeed (primary yields 1, secondary 2). -/
def okOp : Bool → Unit → Except Str Nat := fun s _ =>
  match s with
  | true => .ok 1
  | false => .ok 2

/-- Leg op: both stores fail, with distinct errors. -/
def errOp : Bool → Unit → Except Str Nat := fun s _ =>
  match s with
  | true => .error (str "primary failed")
  | false => .error (str "secondary failed")

/-- Leg op: primary store fails, secondary succeeds. -/
def priFailOp : Bool → Unit → Except Str Nat := fun s _ =>
  match s with
  | true => .error (str "primary failed")
  | false => .ok 2

/-- Client-leg pair: primary callable succeeds. -/
def aOk : Unit → Except Str Nat := fun _ => .ok 1

/-- Client-leg pair: secondary callable fails. -/
def bErr : Unit → Except Str Nat := fun _ => .error (str "secondary failed")

/-- Client-leg pair: primary callable fails. -/
def aErr : Unit → Except Str Nat := fun _ => .error (str "primary failed")

/-- Client-leg pair: secondary callable succeeds. -/
def bOk : Unit → Except Str Nat := fun _ => .ok 2

/-- Round trip: primary request (`true`) gets a 503, secondary a 200. -/
def rt503 : Bool → Except Str s3router.Resp := fun r =>
  match r with
  | true => .ok { status := 503, body := str "primary degraded" }
  | false => .ok { status := 200, body := str "secondary ok" }

/-- Round trip: both requests get a 200. -/
def rt200 : Bool → Except Str s3router.Resp := fun r =>
  match r with
  | true => .ok { status := 200, body := str "primary ok" }
  | false => .ok { status := 200, body := str "secondary ok" }

/-- Round trip: primary request errors at the transport, secondary gets 200. -/
def rtErrP : Bool → Except Str s3router.Resp := fun r =>
  match r with
  | true => .error (str "connection refused")
  | false => .ok { status := 200, body := str "secondary ok" }

/-- A yamlConfig whose only rule's only block has no `"*"` action. -/
def ymlNoStar : config.YamlConfig :=
  { endpoints := [(str "primary", str "http://primary:9000")]
    buckets := []
    rules := [{ bucket := str "mybucket"
                blocks := [(str "raw/", [(str "GetObject", config.ActPrimary)])] }] }

/-- Root-package yamlConfig whose first block lacks a `"*"` action. -/
def yNoStarRoot : s3router.YamlConfig :=
  { endpoints := [(str "primary", str "http://primary:9000")]
    rules := [{ bucket := str "mybucket"
                blocks := [(str "raw/", [(str "GetObject", str "primary")])] }] }

/-- A yamlConfig containing two rules with the same (bucket, prefix) pair. -/
def ymlDup : config.YamlConfig :=
  { endpoints := [(str "primary", str "http://primary:9000")]
    buckets := []
    rules := [{ bucket := str "b", blocks := [(str "p", [(config.star, config.ActMirror)])] },
              { bucket := str "b", blocks := [(str "p", [(config.star, config.ActPrimary)])] }] }

/-- Root-package yamlConfig with a duplicate (bucket, prefix) pair. -/
def yDupRoot : s3router.YamlConfig :=
  { endpoints := [(str "primary", str "http://primary:9000")]
    rules := [{ bucket := str "b", blocks := [(str "p", [(str "*", str "mirror")])] },
              { bucket := str "b", blocks := [(str "p", [(str "*", str "primary")])] }] }

/-- How many rules of a compiled `config.Config` are for bucket `b`, prefix
`p` — 0 if the load failed. -/
def loadedDupCount : Nat :=
  match config.Load ymlDup with
  | .ok cfg => cfg.rules.countP (fun r => r.bucket == str "b" && r.pref == str "p")
  | .error _ => 0

/-- Same count for the root-package loader. -/
def loadedDupCountRoot : Nat :=
  match s3router.LoadConfig yDupRoot with
  | .ok cfg => cfg.rules.countP (fun r => r.bucket == str "b" && r.pref == str "p")
  | .error _ => 0

/-- The context error used in the C9 evaluation. -/
def cancelErr : Str := str "context canceled"

/-! ## DEFS-END (definitions above, theorems below) -/

/-! ## Theorems: string utilities -/

theorem isPre_nil (k : Str) : isPre [] k = true := rfl

theorem isPre_append_self (s t : Str) : isPre s (s ++ t) = true := by
  induction s with
  | nil => rfl
  | cons a as ih => simp [isPre, ih]

theorem length_le_of_isPre : ∀ {p q : Str}, isPre p q = true → p.length ≤ q.length := by
  intro p
  induction p with
  | nil => intro q _; simp
  | cons a as ih =>
    intro q h
    cases q with
    | nil => simp [isPre] at h
    | cons b bs =>
      simp only [isPre, Bool.and_eq_true] at h
      simpa [Nat.succ_le_succ_iff] using ih h.2

theorem isPre_total : ∀ {p q k : Str}, isPre p k = true → isPre q k = true →
    isPre p q = true ∨ isPre q p = true := by
  intro p q k
  induction k generalizing p q with
  | nil =>
    intro hp hq
    cases p with
    | nil => exact Or.inl rfl
    | cons a as => simp [isPre] at hp
  | cons c cs ih =>
    intro hp hq
    cases p with
    | nil => exact Or.inl rfl
    | cons a as =>
      cases q with
      | nil => exact Or.inr rfl
      | cons b bs =>
        simp only [isPre, Bool.and_eq_true, beq_iff_eq] at hp hq
        rcases hp with ⟨rfl, hp2⟩
        rcases hq with ⟨rfl, hq2⟩
        rcases ih hp2 hq2 with h | h
        · exact Or.inl (by simp [isPre, h])
        · exact Or.inr (by simp [isPre, h])

theorem strLt_of_isPre_ne : ∀ {p q : Str}, isPre p q = true → p ≠ q → strLt p q = true := by
  intro p
  induction p with
  | nil =>
    intro q _ hne
    cases q with
    | nil => exact absurd rfl hne
    | cons b bs => rfl
  | cons a as ih =>
    intro q hp hne
    cases q with
    | nil => simp [isPre] at hp
    | cons b bs =>
      simp only [isPre, Bool.and_eq_true, beq_iff_eq] at hp
      rcases hp with ⟨rfl, hp2⟩
      have hne2 : as ≠ bs := fun h => hne (by rw [h])
      simp [strLt, lt_irrefl, ih hp2 hne2]

/-- If `p` sorts at-or-after `q` (`strLt p q = false`) and both are prefixes of
the same key, then `q` is at most as long as `p`. -/
theorem length_le_of_strLt_false {p q k : Str} (h : strLt p q = false)
    (hp : isPre p k = true) (hq : isPre q k = true) : q.length ≤ p.length := by
  rcases isPre_total hp hq with hpq | hqp
  · by_cases he : p = q
    · subst he; exact le_refl _
    · exact absurd (strLt_of_isPre_ne hpq he) (by simp [h])
  · exact length_le_of_isPre hqp

theorem containsStr_of_append : ∀ (s suf : Str), containsStr (s ++ suf) s = true := by
  intro s suf
  cases s with
  | nil =>
    cases suf with
    | nil => rfl
    | cons h t => simp [containsStr, isPre]
  | cons a as =>
    have h := isPre_append_self (a :: as) suf
    simp only [containsStr, List.cons_append, Bool.or_eq_true]
    exact Or.inl (by simpa using h)

theorem containsStr_append_left : ∀ (pre s suf : Str), containsStr (pre ++ s ++ suf) s = true := by
  intro pre s suf
  induction pre with
  | nil => simpa using containsStr_of_append s suf
  | cons c t ih =>
    simp only [List.cons_append, containsStr, Bool.or_eq_true]
    right
    simpa using ih

/-! ## Theorems: config lookup -/

namespace config

theorem ruleMatch_isPre {rule : Rule} {bucket key : Str} (h : ruleMatch rule bucket key) :
    isPre rule.pref key = true := by
  rcases h.2 with h2 | h2
  · rw [h2]; exact isPre_nil key
  · exact h2

theorem lookupRules_cons_skip {rule : Rule} {rest : List Rule} {bucket key op : Str}
    (h : ¬ ruleMatch rule bucket key) :
    lookupRules (rule :: rest) bucket key op = lookupRules rest bucket key op := by
  unfold ruleMatch at h
  by_cases hb : rule.bucket ≠ bucket ∧ rule.bucket ≠ star
  · simp only [lookupRules]
    rw [if_pos hb]
  · have hbm : rule.bucket = bucket ∨ rule.bucket = star := by
      rcases not_and_or.mp hb with h1 | h1
      · exact Or.inl (not_not.mp h1)
      · exact Or.inr (not_not.mp h1)
    have hc : rule.pref ≠ [] ∧ isPre rule.pref key = false := by
      rcases not_and_or.mp h with h1 | h1
      · exact absurd hbm h1
      · rw [not_or] at h1
        exact ⟨h1.1, by simpa using h1.2⟩
    simp only [lookupRules]
    rw [if_neg hb, if_pos hc]

theorem lookupRules_cons_hit {rule : Rule} {rest : List Rule} {bucket key op : Str}
    (h : ruleMatch rule bucket key) :
    (lookupRules (rule :: rest) bucket key op).1 = rule := by
  unfold ruleMatch at h
  have hb : ¬(rule.bucket ≠ bucket ∧ rule.bucket ≠ star) := by
    rw [not_and_or]
    rcases h.1 with h1 | h1
    · exact Or.inl (not_not.mpr h1)
    · exact Or.inr (not_not.mpr h1)
  have hc : ¬(rule.pref ≠ [] ∧ isPre rule.pref key = false) := by
    rw [not_and_or]
    rcases h.2 with h2 | h2
    · exact Or.inl (not_not.mpr h2)
    · exact Or.inr (by simp [h2])
  simp only [lookupRules]
  rw [if_neg hb, if_neg hc]
  cases mapGet rule.actions op <;> rfl

end config

/-! ## Theorems: longest-prefix lookup (claims C1, C6) -/

namespace config

theorem ruleLE_pref {r1 r2 : Rule} (h : ruleLE r1 r2) (hb : r1.bucket = r2.bucket) :
    strLt r1.pref r2.pref = false := by
  unfold ruleLE ruleLess at h
  rwa [if_neg (not_not.mpr hb.symm)] at h

theorem lookupRules_longest : ∀ (rules : List Rule),
    List.Pairwise ruleLE rules → ∀ (bucket key op : Str),
    ∀ r ∈ rules, ruleMatch r bucket key →
      r.bucket = (lookupRules rules bucket key op).1.bucket →
      r.pref.length ≤ (lookupRules rules bucket key op).1.pref.length := by
  intro rules
  induction rules with
  | nil => intro _ bucket key op r hr; exact absurd hr (List.not_mem_nil r)
  | cons head rest ih =>
    intro hpw bucket key op r hr hmatch hbk
    rcases List.pairwise_cons.mp hpw with ⟨hhead, htail⟩
    by_cases hm : ruleMatch head bucket key
    · have h1 : (lookupRules (head :: rest) bucket key op).1 = head :=
        lookupRules_cons_hit hm
      rw [h1] at hbk ⊢
      rcases List.mem_cons.mp hr with rfl | hr'
      · exact le_refl _
      · have hle := hhead r hr'
        have hlt : strLt head.pref r.pref = false := ruleLE_pref hle hbk.symm
        exact length_le_of_strLt_false hlt (ruleMatch_isPre hm) (ruleMatch_isPre hmatch)
    · have h1 : lookupRules (head :: rest) bucket key op = lookupRules rest bucket key op :=
        lookupRules_cons_skip hm
      rw [h1] at hbk ⊢
      rcases List.mem_cons.mp hr with rfl | hr'
      · exact absurd hmatch hm
      · exact ih htail bucket key op r hr' hmatch hbk

theorem lookupRules_no_match : ∀ (rules : List Rule) (bucket key op : Str),
    (∀ r ∈ rules, ¬ ruleMatch r bucket key) →
    lookupRules rules bucket key op = (emptyRule, ActPrimary) := by
  intro rules
  induction rules with
  | nil => intro _ _ _ _; rfl
  | cons head rest ih =>
    intro bucket key op h
    rw [lookupRules_cons_skip (h head (List.mem_cons_self head rest))]
    exact ih bucket key op (fun r hr => h r (List.mem_cons_of_mem head hr))

end config

/-- Claim C1 (amended): on a rule table sorted as `Load` leaves it (pairwise
`ruleLE`: bucket ascending, prefix lexicographically descending), the rule
returned by `Lookup` has the longest matching prefix among the matching
rules whose bucket field equals the returned rule's own bucket field.  (The
original claim — longest among all rules whose bucket equals the query
bucket or the wildcard — fails: bucket groups are scanned in bucket order,
so a wildcard-bucket rule can win with a shorter prefix; see the
counterexample.  Repeated lookups agree since `Lookup` is a pure function of
the compiled table and the query.) -/
theorem c1_lookup_longest_within_bucket_group (cfg : config.Config)
    (h : List.Pairwise config.ruleLE cfg.rules) (bucket key op : Str)
    (r : config.Rule) (hr : r ∈ cfg.rules) (hmatch : config.ruleMatch r bucket key)
    (hb : r.bucket = (config.Lookup cfg bucket key op).1.bucket) :
    r.pref.length ≤ (config.Lookup cfg bucket key op).1.pref.length :=
  config.lookupRules_longest cfg.rules h bucket key op r hr hmatch hb

/-- Witness for C1: the single matching rule of `cfgC1W` is returned and is
trivially longest in its bucket group. -/
theorem c1_lookup_longest_witness :
    ruleBC1.pref.length ≤
      (config.Lookup cfgC1W (str "b") (str "key") (str "GetObject")).1.pref.length :=
  c1_lookup_longest_within_bucket_group cfgC1W (by decide) (str "b") (str "key")
    (str "GetObject") ruleBC1 (by decide) (by decide) (by decide)

/-- Counterexample to C1 as stated: in the sorted table `cexC1`, the query
(bucket `b`, key `k`) is answered by the wildcard-bucket rule with the empty
prefix even though the bucket-`b` rule matches with the strictly longer
prefix `k` — the returned rule does not have the longest matching prefix
among all rules whose bucket field equals the query bucket or the
wildcard. -/
theorem c1_wildcard_bucket_counterexample :
    List.Pairwise config.ruleLE cexC1.rules ∧
    ruleBC1 ∈ cexC1.rules ∧
    config.ruleMatch ruleBC1 (str "b") (str "k") ∧
    (config.Lookup cexC1 (str "b") (str "k") (str "GetObject")).1.pref.length <
      ruleBC1.pref.length := by
  decide

/-! ## Theorems: no-match default (claim C6) -/

/-- Claim C6: when no compiled rule matches the query, `Lookup` returns the
zero rule and the `primary` action rather than failing, and dispatching the
`primary` action invokes only the primary leg on the unrewritten primary
input, returning its result verbatim. -/
theorem c6_no_match_defaults_primary (cfg : config.Config) (bucket key op : Str)
    (h : ∀ r ∈ cfg.rules, ¬ config.ruleMatch r bucket key) :
    config.Lookup cfg bucket key op = (config.emptyRule, config.ActPrimary) ∧
    (∀ (E T I St : Type) (legOp : St → I → Except E T) (in1 in2 : I) (s1 s2 : St),
      s3router.dispatch config.ActPrimary legOp in1 in2 s1 s2 = (legOp s1 in1, [Leg.prim])) := by
  constructor
  · exact config.lookupRules_no_match cfg.rules bucket key op h
  · intro E T I St legOp in1 in2 s1 s2
    simp [s3router.dispatch]

/-- Witness for C6: no rule of `cfgC1W` matches bucket `z`. -/
theorem c6_no_match_witness :
    config.Lookup cfgC1W (str "z") (str "x") (str "GetObject") =
      (config.emptyRule, config.ActPrimary) ∧
    s3router.dispatch config.ActPrimary mixOp () () true false = (mixOp true (), [Leg.prim]) :=
  ⟨(c6_no_match_defaults_primary cfgC1W (str "z") (str "x") (str "GetObject") (by decide)).1,
   (c6_no_match_defaults_primary cfgC1W (str "z") (str "x") (str "GetObject") (by decide)).2
     Str Nat Unit Bool mixOp () () true false⟩

/-! ## Theorems: mirror dispatch (claims C2, C10) -/

/-- Claim C2: for every mirror dispatch (both the `store.Store` variant from
src/router.go and the `*s3.Client` variant from src/client.go), both legs
are invoked; if the primary leg succeeds and the secondary fails, the call
returns an error; if both succeed, the call returns the primary leg's
result. -/
theorem c2_mirror_semantics (E T I St C : Type) (op : St → I → Except E T)
    (in1 in2 : I) (s1 s2 : St) (a b : C → Except E T) (c1 c2 : C) :
    (s3router.doParallel true op in1 in2 s1 s2).2 = [Leg.prim, Leg.sec] ∧
    (∀ out eB, op s1 in1 = .ok out → op s2 in2 = .error eB →
      (s3router.doParallel true op in1 in2 s1 s2).1 = .error eB) ∧
    (∀ out1 out2, op s1 in1 = .ok out1 → op s2 in2 = .ok out2 →
      (s3router.doParallel true op in1 in2 s1 s2).1 = .ok out1) ∧
    (rclient.doParallel true a b c1 c2).2 = [Leg.prim, Leg.sec] ∧
    (∀ out eB, a c1 = .ok out → b c2 = .error eB →
      (rclient.doParallel true a b c1 c2).1 = .error eB) ∧
    (∀ out1 out2, a c1 = .ok out1 → b c2 = .ok out2 →
      (rclient.doParallel true a b c1 c2).1 = .ok out1) := by
  refine ⟨rfl, ?_, ?_, rfl, ?_, ?_⟩
  · intro out eB h1 h2; simp [s3router.doParallel, h1, h2]
  · intro out1 out2 h1 h2; simp [s3router.doParallel, h1, h2]
  · intro out eB h1 h2; simp [rclient.doParallel, h1, h2]
  · intro out1 out2 h1 h2; simp [rclient.doParallel, h1, h2]

/-- Witness for C2 at concrete legs: primary ok / secondary failing makes the
mirror call fail, both-ok returns the primary result, in both variants. -/
theorem c2_mirror_witness :
    (s3router.doParallel true mixOp () () true false).1 = .error (str "secondary failed") ∧
    (s3router.doParallel true okOp () () true false).1 = .ok 1 ∧
    (rclient.doParallel true aOk bErr () ()).1 = .error (str "secondary failed") :=
  ⟨(c2_mirror_semantics Str Nat Unit Bool Unit mixOp () () true false aOk bErr () ()).2.1
      1 (str "secondary failed") rfl rfl,
   (c2_mirror_semantics Str Nat Unit Bool Unit okOp () () true false aOk bErr () ()).2.2.1
      1 2 rfl rfl,
   (c2_mirror_semantics Str Nat Unit Bool Unit mixOp () () true false aOk bErr () ()).2.2.2.2.1
      1 (str "secondary failed") rfl rfl⟩

/-- Claim C10: when both legs of a mirror dispatch fail, the error returned
is the primary leg's error (`errA` is checked before `errB` after the
`wg.Wait()` join, so the finish order of the goroutines is irrelevant), in
both dispatcher variants. -/
theorem c10_mirror_primary_error_precedence (E T I St C : Type)
    (op : St → I → Except E T) (in1 in2 : I) (s1 s2 : St)
    (a b : C → Except E T) (c1 c2 : C) :
    (∀ eA eB, op s1 in1 = .error eA → op s2 in2 = .error eB →
      (s3router.doParallel true op in1 in2 s1 s2).1 = .error eA) ∧
    (∀ eA eB, a c1 = .error eA → b c2 = .error eB →
      (rclient.doParallel true a b c1 c2).1 = .error eA) := by
  constructor
  · intro eA eB h1 h2; simp [s3router.doParallel, h1]
  · intro eA eB h1 h2; simp [rclient.doParallel, h1]

/-- Witness for C10: with both concrete legs failing, the primary's error
surfaces in both variants. -/
theorem c10_mirror_both_error_witness :
    (s3router.doParallel true errOp () () true false).1 = .error (str "primary failed") ∧
    (rclient.doParallel true aErr bErr () ()).1 = .error (str "primary failed") :=
  ⟨(c10_mirror_primary_error_precedence Str Nat Unit Bool Unit errOp () () true false
      aErr bErr () ()).1 (str "primary failed") (str "secondary failed") rfl rfl,
   (c10_mirror_primary_error_precedence Str Nat Unit Bool Unit errOp () () true false
      aErr bErr () ()).2 (str "primary failed") (str "secondary failed") rfl rfl⟩

/-! ## Theorems: best-effort dispatch (claim C4) -/

/-- Claim C4: a best-effort dispatch returns exactly the primary leg's result
or error; the secondary leg's outcome (fired and discarded) never influences
the caller-visible value, in both dispatcher variants. -/
theorem c4_best_effort_primary_result (E T I St C : Type)
    (op : St → I → Except E T) (in1 in2 : I) (s1 s2 : St)
    (a b : C → Except E T) (c1 c2 : C) :
    (s3router.doParallel false op in1 in2 s1 s2).1 = op s1 in1 ∧
    (rclient.doParallel false a b c1 c2).1 = a c1 := by
  constructor
  · simp [s3router.doParallel]
  · simp [rclient.doParallel]

/-! ## Theorems: fallback dispatch (claim C3) -/

/-- Claim C3: in a fallback dispatch, if the primary leg fails — a returned
error (`doSerial`, src/router.go:333-344), or a transport error or a
`StatusCode >= 500` failure-status response (`ruleRT.doFallback`,
src/router.go:121-127) — and the secondary leg succeeds, the call succeeds
with the secondary leg's result; if the primary leg succeeds, the secondary
leg is never invoked. -/
theorem c3_fallback_semantics (E T I St Req : Type) (op : St → I → Except E T)
    (in1 in2 : I) (s1 s2 : St) (rt : Req → Except E s3router.Resp) (reqP reqS : Req) :
    (∀ e out2, op s1 in1 = .error e → op s2 in2 = .ok out2 →
      (s3router.doSerial op in1 in2 s1 s2).1 = .ok out2) ∧
    (∀ out, op s1 in1 = .ok out →
      s3router.doSerial op in1 in2 s1 s2 = (.ok out, [Leg.prim])) ∧
    (∀ e resp2, rt reqP = .error e → rt reqS = .ok resp2 →
      (s3router.doFallback rt reqP reqS).1 = .ok resp2) ∧
    (∀ resp resp2, rt reqP = .ok resp → 500 ≤ resp.status → rt reqS = .ok resp2 →
      (s3router.doFallback rt reqP reqS).1 = .ok resp2) ∧
    (∀ resp, rt reqP = .ok resp → resp.status < 500 →
      s3router.doFallback rt reqP reqS = (.ok resp, [Leg.prim])) := by
  refine ⟨?_, ?_, ?_, ?_, ?_⟩
  · intro e out2 h1 h2; simp [s3router.doSerial, h1, h2]
  · intro out h1; simp [s3router.doSerial, h1]
  · intro e resp2 h1 h2; simp [s3router.doFallback, h1, h2]
  · intro resp resp2 h1 h2 h3
    simp [s3router.doFallback, h1, h3, Nat.not_lt.mpr h2]
  · intro resp h1 h2; simp [s3router.doFallback, h1, h2]

/-- Witness for C3 at concrete legs: a failing primary falls back to the
secondary's result (error case and 503 case) and a succeeding primary never
invokes the secondary. -/
theorem c3_fallback_witness :
    (s3router.doSerial priFailOp () () true false).1 = .ok 2 ∧
    s3router.doSerial okOp () () true false = (.ok 1, [Leg.prim]) ∧
    (s3router.doFallback rtErrP true false).1 = .ok { status := 200, body := str "secondary ok" } ∧
    (s3router.doFallback rt503 true false).1 = .ok { status := 200, body := str "secondary ok" } ∧
    s3router.doFallback rt200 true false = (.ok { status := 200, body := str "primary ok" }, [Leg.prim]) :=
  ⟨(c3_fallback_semantics Str Nat Unit Bool Bool priFailOp () () true false rtErrP true false).1
      (str "primary failed") 2 rfl rfl,
   (c3_fallback_semantics Str Nat Unit Bool Bool okOp () () true false rtErrP true false).2.1
      1 rfl,
   (c3_fallback_semantics Str Nat Unit Bool Bool okOp () () true false rtErrP true false).2.2.1
      (str "connection refused") { status := 200, body := str "secondary ok" } rfl rfl,
   (c3_fallback_semantics Str Nat Unit Bool Bool okOp () () true false rt503 true false).2.2.2.1
      { status := 503, body := str "primary degraded" } { status := 200, body := str "secondary ok" }
      rfl (by decide) rfl,
   (c3_fallback_semantics Str Nat Unit Bool Bool okOp () () true false rt200 true false).2.2.2.2
      { status := 200, body := str "primary ok" } rfl (by decide)⟩

/-! ## Theorems: body replication round trip (claim C5) -/

theorem runReads_invariant : ∀ (sched : List Bool) (r1 r2 : List Nat),
    (s3router.runReads sched r1 r2).1.1 ++ (s3router.runReads sched r1 r2).1.2 = r1 ∧
    (s3router.runReads sched r1 r2).2.1 ++ (s3router.runReads sched r1 r2).2.2 = r2 := by
  intro sched
  induction sched with
  | nil => intro r1 r2; exact ⟨rfl, rfl⟩
  | cons c s ih =>
    intro r1 r2
    cases c with
    | true =>
      cases r1 with
      | nil => simpa [s3router.runReads] using ih [] r2
      | cons a as =>
        have h := ih as r2
        simp only [s3router.runReads, if_pos, List.cons_append]
        exact ⟨by rw [h.1], h.2⟩
    | false =>
      cases r2 with
      | nil => simpa [s3router.runReads] using ih r1 []
      | cons b bs =>
        have h := ih r1 bs
        simp only [s3router.runReads, Bool.false_eq_true, if_false, List.cons_append]
        exact ⟨h.1, by rw [h.2]⟩

/-- Claim C5: for a source that yields its `data` bytes cleanly and an
uncancelled context, `drainBody` returns two readers over exactly the
original bytes, and `teeBody`'s copy delivers exactly the original bytes to
both pipes, closing both cleanly.  Consuming the two buffered readers under
an arbitrary interleaving schedule never mixes or loses bytes (what each
reader has delivered plus what remains is always the original), and any
schedule that reads a handle to exhaustion obtains exactly the original
bytes from it. -/
theorem c5_body_round_trip :
    (∀ (E : Type) (data : List Nat),
      @s3router.drainBody E none { data := data, failure := none } = .ok (data, data)) ∧
    (∀ (E : Type) (ce : E) (data : List Nat),
      s3router.teeRun false ce { data := data, failure := none } =
        ({ data := data, closeErr := none }, { data := data, closeErr := none })) ∧
    (∀ (sched : List Bool) (r1 r2 : List Nat),
      (s3router.runReads sched r1 r2).1.1 ++ (s3router.runReads sched r1 r2).1.2 = r1 ∧
      (s3router.runReads sched r1 r2).2.1 ++ (s3router.runReads sched r1 r2).2.2 = r2) ∧
    (∀ (sched : List Bool) (r1 r2 : List Nat),
      (s3router.runReads sched r1 r2).1.2 = [] → (s3router.runReads sched r1 r2).1.1 = r1) ∧
    (∀ (sched : List Bool) (r1 r2 : List Nat),
      (s3router.runReads sched r1 r2).2.2 = [] → (s3router.runReads sched r1 r2).2.1 = r2) := by
  refine ⟨?_, ?_, runReads_invariant, ?_, ?_⟩
  · intro E data; rfl
  · intro E ce data; rfl
  · intro sched r1 r2 h
    have hinv := (runReads_invariant sched r1 r2).1
    rwa [h, List.append_nil] at hinv
  · intro sched r1 r2 h
    have hinv := (runReads_invariant sched r1 r2).2
    rwa [h, List.append_nil] at hinv

/-- Witness for C5: an alternating schedule exhausts both two-byte readers
and each delivers exactly the original bytes. -/
theorem c5_body_round_trip_witness :
    (s3router.runReads [true, false, true, false] [7, 8] [7, 8]).1.1 = [7, 8] ∧
    (s3router.runReads [true, false, true, false] [7, 8] [7, 8]).2.1 = [7, 8] :=
  ⟨c5_body_round_trip.2.2.2.1 [true, false, true, false] [7, 8] [7, 8] (by decide),
   c5_body_round_trip.2.2.2.2 [true, false, true, false] [7, 8] [7, 8] (by decide)⟩

/-! ## Theorems: cancellation during tee (claim C9) -/

/-- Claim C9 fails on the code: `teeBody`'s goroutine consults the context
exactly once, in a `select` with a `default` branch, before starting
`io.Copy` — cancellation is an input to the model only through
`cancelReady`, the readiness of `ctx.Done()` at that single check.  First
conjunct: with the context already cancelled (`cancelErr`) but the `select`
having taken the `default` branch (`cancelReady = false`, i.e. the
cancellation arrived after the check), the copy runs to completion, both
pipes are closed cleanly, and readers successfully read the full body — no
remaining read fails with the cancellation error, contradicting the claim.
Second conjunct: only when `ctx.Done()` was already ready at the check are
both handles closed with the cancellation error.  Third conjunct:
`drainBody`'s post-read check does fail the call when cancelled, as the
claim demands. -/
theorem c9_tee_ignores_late_cancellation :
    s3router.teeRun false cancelErr { data := [1, 2, 3], failure := none } =
      ({ data := [1, 2, 3], closeErr := none }, { data := [1, 2, 3], closeErr := none }) ∧
    s3router.teeRun true cancelErr { data := [1, 2, 3], failure := none } =
      ({ data := [], closeErr := some cancelErr }, { data := [], closeErr := some cancelErr }) ∧
    s3router.drainBody (some cancelErr) { data := [1, 2, 3], failure := none } =
      (.error cancelErr : Except Str (List Nat × List Nat)) :=
  ⟨rfl, rfl, rfl⟩

/-! ## Theorems: loader validation (claims C7, C8) -/

namespace config

theorem load_ok_star {yml : YamlConfig} {cfg : Config} (h : Load yml = .ok cfg) :
    ∀ r ∈ cfg.rules, (mapGet r.actions star).isSome = true := by
  by_cases hall : (expandRules yml.rules).all (fun r => (mapGet r.actions star).isSome) = true
  · simp only [Load, hall, if_true] at h
    cases h
    intro r hr
    exact List.all_eq_true.mp hall r ((List.mem_insertionSort ruleLE).mp hr)
  · have hall' : (expandRules yml.rules).all (fun r => (mapGet r.actions star).isSome) = false :=
      Bool.not_eq_true _ |>.mp hall
    simp [Load, hall'] at h

theorem load_missing_star_error (yml : YamlConfig)
    (h : (expandRules yml.rules).all (fun r => (mapGet r.actions star).isSome) = false) :
    Load yml = .error missingDefaultMsg := by
  simp [Load, h]

theorem load_all_star_ok (yml : YamlConfig)
    (h : (expandRules yml.rules).all (fun r => (mapGet r.actions star).isSome) = true) :
    ∃ cfg, Load yml = .ok cfg ∧ cfg.rules.Perm (expandRules yml.rules) := by
  have hload : Load yml = .ok { endpoints := yml.endpoints, buckets := yml.buckets
                                rules := List.insertionSort ruleLE (expandRules yml.rules) } := by
    simp [Load, h]
  exact ⟨_, hload, List.perm_insertionSort ruleLE (expandRules yml.rules)⟩

end config

namespace s3router

theorem compileOps_keys {b p : Str} : ∀ (ops : List (Str × Str)) (am : List (Str × GoAction)),
    compileOps b p ops = .ok am →
    ∀ k, (mapGet am k).isSome = (mapGet ops k).isSome := by
  intro ops
  induction ops with
  | nil =>
    intro am h k
    cases h
    rfl
  | cons hd rest ih =>
    intro am h k
    obtain ⟨op, tok⟩ := hd
    by_cases hc : (tok.map Char.toLower) ∈ reservedActs
    · simp only [compileOps] at h
      rw [if_pos hc] at h
      cases hrec : compileOps b p rest with
      | error e => rw [hrec] at h; cases h
      | ok am' =>
        rw [hrec] at h
        cases h
        by_cases hk : k = op
        · simp [mapGet, hk]
        · simp [mapGet, hk, ih am' hrec k]
    · simp only [compileOps] at h
      rw [if_neg hc] at h
      cases h

theorem compileBlock_star {ob canon : Str} {al : List (Str × Str)} {p : Str}
    {ops : List (Str × Str)} {r : Rule} (h : compileBlock ob canon al p ops = .ok r) :
    (mapGet r.actionFor (str "*")).isSome = true := by
  by_cases h1 : ops = []
  · simp [compileBlock, h1] at h
  · by_cases h2 : (mapGet ops (str "*")).isNone = true
    · simp [compileBlock, h1, h2] at h
    · simp only [compileBlock, h1, h2, if_false, if_neg] at h
      cases hops : compileOps ob p ops with
      | error e => rw [hops] at h; cases h
      | ok am =>
        rw [hops] at h
        cases h
        have := compileOps_keys ops am hops (str "*")
        simp only [this]
        cases hm : mapGet ops (str "*") with
        | none => rw [hm] at h2; simp at h2
        | some v => simp [hm]

theorem compileBlocks_star {ob canon : Str} {al : List (Str × Str)} :
    ∀ (blocks : List (Str × List (Str × Str))) (rs : List Rule),
    compileBlocks ob canon al blocks = .ok rs →
    ∀ r ∈ rs, (mapGet r.actionFor (str "*")).isSome = true := by
  intro blocks
  induction blocks with
  | nil =>
    intro rs h r hr
    cases h
    exact absurd hr (List.not_mem_nil r)
  | cons hd rest ih =>
    intro rs h r hr
    obtain ⟨p, ops⟩ := hd
    cases hb : compileBlock ob canon al p ops with
    | error e => simp [compileBlocks, hb] at h
    | ok r1 =>
      cases hrest : compileBlocks ob canon al rest with
      | error e => simp [compileBlocks, hb, hrest] at h
      | ok rs' =>
        simp only [compileBlocks, hb, hrest] at h
        cases h
        rcases List.mem_cons.mp hr with rfl | hr'
        · exact compileBlock_star hb
        · exact ih rs' hrest r hr'

theorem compileRules_star : ∀ (yrs : List YamlRule) (rules : List Rule),
    compileRules yrs = .ok rules →
    ∀ r ∈ rules, (mapGet r.actionFor (str "*")).isSome = true := by
  intro yrs
  induction yrs with
  | nil =>
    intro rules h r hr
    cases h
    exact absurd hr (List.not_mem_nil r)
  | cons yr rest ih =>
    intro rules h r hr
    cases hp : parseBucket yr.bucket with
    | error e => simp [compileRules, hp] at h
    | ok ca =>
      by_cases hblk : yr.blocks = []
      · simp [compileRules, hp, hblk] at h
      · cases hbs : compileBlocks yr.bucket ca.1 ca.2 yr.blocks with
        | error e => simp [compileRules, hp, hblk, hbs] at h
        | ok rs =>
          cases hrest : compileRules rest with
          | error e => simp [compileRules, hp, hblk, hbs, hrest] at h
          | ok more =>
            simp only [compileRules, hp, hblk, hbs, hrest, if_neg] at h
            cases h
            rcases List.mem_append.mp hr with hr' | hr'
            · exact compileBlocks_star yr.blocks rs hbs r hr'
            · exact ih more hrest r hr'

theorem loadConfig_ok_star {y : YamlConfig} {cfg : Config} (h : LoadConfig y = .ok cfg) :
    ∀ r ∈ cfg.rules, (mapGet r.actionFor (str "*")).isSome = true := by
  by_cases hep : (mapGet y.endpoints (str "primary")).isNone = true
  · simp [LoadConfig, hep] at h
  · cases hcr : compileRules y.rules with
    | error e => simp [LoadConfig, hep, hcr] at h
    | ok rules =>
      simp only [LoadConfig, hep, hcr, if_neg, if_false] at h
      cases h
      intro r hr
      exact compileRules_star y.rules rules hcr r ((List.mem_insertionSort ruleLE).mp hr)

theorem loadConfig_first_block_missing_star
    (eps : List (Str × Str)) (b p : Str) (ops : List (Str × Str))
    (rest : List (Str × List (Str × Str))) (more : List YamlRule)
    (ca : Str × List (Str × Str))
    (hep : (mapGet eps (str "primary")).isNone = false)
    (hparse : parseBucket b = .ok ca)
    (hne : ops ≠ [])
    (hmiss : (mapGet ops (str "*")).isNone = true) :
    LoadConfig { endpoints := eps
                 rules := { bucket := b, blocks := (p, ops) :: rest } :: more } =
      .error (missingStarMsg b p) := by
  have hblock : compileBlock b ca.1 ca.2 p ops = .error (missingStarMsg b p) := by
    simp [compileBlock, hne, hmiss]
  simp [LoadConfig, hep, compileRules, hparse, compileBlocks, hblock]

end s3router

theorem missingStarMsg_contains (b p : Str) :
    containsStr (s3router.missingStarMsg b p) b = true ∧
    containsStr (s3router.missingStarMsg b p) p = true := by
  constructor
  · exact containsStr_append_left (str "bucket \"") b
      (str "\" prefix \"" ++ p ++ str "\": missing default \"*\" operation")
  · have hmsg : s3router.missingStarMsg b p =
        (str "bucket \"" ++ b ++ str "\" prefix \"") ++ p ++
          str "\": missing default \"*\" operation" := by
      simp [s3router.missingStarMsg, List.append_assoc]
    rw [hmsg]
    exact containsStr_append_left (str "bucket \"" ++ b ++ str "\" prefix \"") p
      (str "\": missing default \"*\" operation")

/-- Claim C7 (amended): loading a configuration in which some rule's prefix
block lacks a `"*"` default action fails in both loaders, and every rule of
a successfully compiled table carries a default action — but only
`LoadConfig` (src/config.go:125) fails with an error naming the offending
bucket and prefix; `config.Load` (src/config/config.go:98) fails with the
fixed message `missing default "*" operation`, which names neither (see the
counterexample). -/
theorem c7_default_action_validation :
    (∀ (yml : config.YamlConfig) (cfg : config.Config), config.Load yml = .ok cfg →
      ∀ r ∈ cfg.rules, (mapGet r.actions config.star).isSome = true) ∧
    (∀ yml : config.YamlConfig,
      (config.expandRules yml.rules).all
        (fun r => (mapGet r.actions config.star).isSome) = false →
      config.Load yml = .error config.missingDefaultMsg) ∧
    (∀ (y : s3router.YamlConfig) (cfg : s3router.Config), s3router.LoadConfig y = .ok cfg →
      ∀ r ∈ cfg.rules, (mapGet r.actionFor (str "*")).isSome = true) ∧
    (∀ (eps : List (Str × Str)) (b p : Str) (ops : List (Str × Str))
      (rest : List (Str × List (Str × Str))) (more : List s3router.YamlRule)
      (ca : Str × List (Str × Str)),
      (mapGet eps (str "primary")).isNone = false →
      s3router.parseBucket b = .ok ca →
      ops ≠ [] →
      (mapGet ops (str "*")).isNone = true →
      s3router.LoadConfig { endpoints := eps
                            rules := { bucket := b, blocks := (p, ops) :: rest } :: more } =
        .error (s3router.missingStarMsg b p)) ∧
    (∀ b p, containsStr (s3router.missingStarMsg b p) b = true ∧
      containsStr (s3router.missingStarMsg b p) p = true) :=
  ⟨fun _ _ h => config.load_ok_star h,
   config.load_missing_star_error,
   fun _ _ h => s3router.loadConfig_ok_star h,
   fun eps b p ops rest more ca hep hparse hne hmiss =>
     s3router.loadConfig_first_block_missing_star eps b p ops rest more ca hep hparse hne hmiss,
   missingStarMsg_contains⟩

/-- Witness for C7: the loaders reject `ymlNoStar` / `yNoStarRoot`, and
`LoadConfig`'s message names bucket `mybucket` and prefix `raw/`. -/
theorem c7_default_action_witness :
    config.Load ymlNoStar = .error config.missingDefaultMsg ∧
    s3router.LoadConfig yNoStarRoot =
      .error (s3router.missingStarMsg (str "mybucket") (str "raw/")) ∧
    containsStr (s3router.missingStarMsg (str "mybucket") (str "raw/")) (str "mybucket") = true ∧
    containsStr (s3router.missingStarMsg (str "mybucket") (str "raw/")) (str "raw/") = true :=
  ⟨c7_default_action_validation.2.1 ymlNoStar (by decide),
   c7_default_action_validation.2.2.2.1 [(str "primary", str "http://primary:9000")]
     (str "mybucket") (str "raw/") [(str "GetObject", str "primary")] [] []
     (str "mybucket", [(str "primary", str "mybucket")])
     (by decide) (by decide) (by decide) (by decide),
   (c7_default_action_validation.2.2.2.2 (str "mybucket") (str "raw/")).1,
   (c7_default_action_validation.2.2.2.2 (str "mybucket") (str "raw/")).2⟩

/-- Counterexample to C7 as stated: `config.Load` rejects `ymlNoStar` (whose
offending rule is for bucket `mybucket`, prefix `raw/`) with its fixed
message, and that message contains neither the bucket nor the prefix — the
error does not identify the offending bucket and prefix. -/
theorem c7_generic_error_counterexample :
    config.Load ymlNoStar = .error config.missingDefaultMsg ∧
    containsStr config.missingDefaultMsg (str "mybucket") = false ∧
    containsStr config.missingDefaultMsg (str "raw/") = false := by
  decide

/-- Claim C8 (amended): neither loader checks for duplicate (bucket, prefix)
pairs.  `config.Load` accepts any configuration whose expanded blocks all
carry a `"*"` action, and the compiled table is a permutation of all
expanded blocks, so duplicates survive into it; `LoadConfig` likewise
compiles the duplicate-pair configuration `yDupRoot` successfully, with
both copies in the table. -/
theorem c8_duplicates_not_rejected :
    (∀ yml : config.YamlConfig,
      (config.expandRules yml.rules).all
        (fun r => (mapGet r.actions config.star).isSome) = true →
      ∃ cfg, config.Load yml = .ok cfg ∧ cfg.rules.Perm (config.expandRules yml.rules)) ∧
    (s3router.LoadConfig yDupRoot).isOk = true ∧
    loadedDupCountRoot = 2 := by
  refine ⟨config.load_all_star_ok, by decide, by decide⟩

/-- Witness for C8: the duplicate-pair configuration `ymlDup` loads
successfully and its compiled table keeps all expanded blocks. -/
theorem c8_duplicates_witness :
    ∃ cfg, config.Load ymlDup = .ok cfg ∧ cfg.rules.Perm (config.expandRules ymlDup.rules) :=
  c8_duplicates_not_rejected.1 ymlDup (by decide)

/-- Counterexample to C8 as stated: `ymlDup` contains two rules with the same
(bucket `b`, prefix `p`) pair, yet `config.Load` succeeds, and the compiled
table contains both rules for that pair. -/
theorem c8_duplicate_load_succeeds :
    (config.Load ymlDup).isOk = true ∧
    loadedDupCount = 2 ∧
    (config.expandRules ymlDup.rules).countP
      (fun r => r.bucket == str "b" && r.pref == str "p") = 2 := by
  decide
